import Mathlib

/-!
Verification development for the npm-trusted-publisher repository.

The extension side (popup.js, content.js) is embedded as pure state
transformers over the shared persisted record; the CLI side
(publish-unpublished.sh, the batch checker) as pure functions producing
effect traces.  Timers, the DOM and message delivery are modelled by
explicit data (effect fields, abstract page snapshots, operation events).
-/

namespace NTP

/-- Run status enum from popup.js state: idle, running, paused. -/
inductive Status where
  | idle
  | running
  | paused
deriving DecidableEq

/-- Config object of the shared record (popup.js saveConfig / default state).
The popup's saveConfig rebuilds the object without a mode key, so mode is
an Option; content.js reads state.config.mode. -/
structure Config where
  owner : String
  repository : String
  workflow : String
  environment : String
  mode : Option String
  navigationMode : String
  autoSubmit : Bool
  delay : Nat
deriving DecidableEq

/-- The shared persisted record (popup.js lines 1-18). -/
structure RunState where
  status : Status
  packages : List String
  currentIndex : Nat
  completed : List String
  failed : List String
  skipped : List String
  config : Config
deriving DecidableEq

/-- Default config from popup.js initial state. -/
def defaultConfig : Config :=
  { owner := "dxos", repository := "dxos", workflow := "publish-all.yml",
    environment := "", mode := none, navigationMode := "manual",
    autoSubmit := false, delay := 2 }

/-- Default state from popup.js initial state object. -/
def initState : RunState :=
  { status := Status.idle, packages := [], currentIndex := 0,
    completed := [], failed := [], skipped := [], config := defaultConfig }

/-- A packageResult message (content.js to popup.js).  The waiting field is
sent by content.js challenge branches; the popup handler destructures the
message without it. -/
structure ResultMsg where
  success : Bool
  packageName : String
  error : Option String
  alreadyConfigured : Bool
  notFound : Bool
  completed : Bool
  waiting : Bool
deriving DecidableEq

/-- JS membership-checked push used everywhere:
if (!list.includes(p)) list.push(p). -/
def pushIfAbsent (p : String) (l : List String) : List String :=
  if p ∈ l then l else l ++ [p]

/-- Package settings URL built by popup.js processCurrentPackage and the
content.js navigation branches. -/
def packageUrl (pkg : String) : String :=
  "https://www.npmjs.com/package/" ++ pkg ++ "/access"

/-- JS String.prototype.split on the newline character, over the
character list. -/
def splitLines (cs : List Char) : List (List Char) :=
  match cs with
  | [] => [[]]
  | c :: rest =>
      let r := splitLines rest
      if c = '\n' then [] :: r
      else
        match r with
        | [] => [[c]]
        | l :: ls => (c :: l) :: ls

/-- JS String.prototype.trim: drop whitespace from both ends. -/
def jsTrim (s : String) : String :=
  String.mk (((s.data.dropWhile Char.isWhitespace).reverse.dropWhile
    Char.isWhitespace).reverse)

/-- JS String.prototype.startsWith. -/
def jsStartsWith (s pre : String) : Bool :=
  pre.data.isPrefixOf s.data

/-- parsePackages from popup.js: split on newline, trim, drop empty lines
and comment lines starting with a hash. -/
def parsePackages (text : String) : List String :=
  ((splitLines text.data).map (fun cs => jsTrim (String.mk cs))).filter
    (fun line => line != "" && !(jsStartsWith line "#"))

/-- Form inputs read by the popup from its DOM elements. -/
structure FormInputs where
  owner : String
  repository : String
  workflow : String
  environment : String
  navigationMode : String
  autoSubmit : String
  delay : String
  packagesText : String
deriving DecidableEq

/-- Decimal value of a digit list. -/
def digitsToNat (ds : List Char) : Nat :=
  ds.foldl (fun n c => n * 10 + (c.toNat - 48)) 0

/-- parseInt(value, 10) followed by JS or-with-2: a failed or zero parse
yields 2 (0 is falsy in JS). -/
def parseDelay (s : String) : Nat :=
  let ds := (s.data.dropWhile Char.isWhitespace).takeWhile Char.isDigit
  if ds.isEmpty then 2
  else if digitsToNat ds = 0 then 2 else digitsToNat ds

/-- saveConfig from popup.js: rebuild config from form inputs (trimmed);
the rebuilt object has no mode key. -/
def configOfForm (f : FormInputs) : Config :=
  { owner := jsTrim f.owner, repository := jsTrim f.repository,
    workflow := jsTrim f.workflow, environment := jsTrim f.environment,
    mode := none, navigationMode := f.navigationMode,
    autoSubmit := f.autoSubmit == "true", delay := parseDelay f.delay }

/-- processCurrentPackage from popup.js: bail unless running; finish when
the cursor is past the end (status becomes idle); otherwise navigate the
tab to the current package's access URL. -/
def processCurrentPackage (s : RunState) : RunState × Option String :=
  if s.status ≠ Status.running then (s, none)
  else if s.packages.length ≤ s.currentIndex then
    ({ s with status := Status.idle }, none)
  else (s, some (packageUrl (s.packages.getD s.currentIndex "")))

/-- Result of handleStart: final popup state, the sequence of states
persisted to storage, whether the start was accepted, and the navigation
target if any. -/
structure StartOutcome where
  state : RunState
  persists : List RunState
  accepted : Bool
  navTarget : Option String
deriving DecidableEq

/-- handleStart from popup.js.  Note the source calls saveConfig() first
(which mutates config and persists via saveState) and assigns the parsed
package list before the empty-list check rejects. -/
def handleStart (s : RunState) (f : FormInputs) : StartOutcome :=
  let s1 := { s with config := configOfForm f }
  let s2 := { s1 with packages := parsePackages f.packagesText }
  if s2.packages = [] then
    { state := s2, persists := [s1], accepted := false, navTarget := none }
  else if s2.config.owner = "" ∨ s2.config.repository = "" ∨ s2.config.workflow = "" then
    { state := s2, persists := [s1], accepted := false, navTarget := none }
  else
    let s3 := { s2 with
      status := Status.running
      currentIndex := 0
      completed := []
      failed := []
      skipped := [] }
    let pc := processCurrentPackage s3
    { state := pc.1, persists := [s1, s3], accepted := true, navTarget := pc.2 }

/-- handlePause from popup.js: set status to paused, persist. -/
def handlePause (s : RunState) : RunState :=
  { s with status := Status.paused }

/-- handleResume from popup.js: set status to running, persist, then
processCurrentPackage (which navigates to the current package). -/
def handleResume (s : RunState) : RunState × Option String :=
  processCurrentPackage { s with status := Status.running }

/-- handleNext from popup.js: push the current package to completed when
it is truthy and in neither completed nor failed (skipped is not
consulted), advance the cursor, then finish or navigate. -/
def handleNext (s : RunState) : RunState × Option String :=
  let pkg := s.packages.getD s.currentIndex ""
  let completed1 :=
    if pkg ≠ "" ∧ pkg ∉ s.completed ∧ pkg ∉ s.failed
    then s.completed ++ [pkg] else s.completed
  let s1 := { s with
    completed := completed1
    currentIndex := s.currentIndex + 1 }
  if s1.packages.length ≤ s1.currentIndex then
    ({ s1 with status := Status.idle }, none)
  else processCurrentPackage s1

/-- handlePackageResult from popup.js lines 399-463: classify the reported
package into a bucket, then auto-advance when warranted.  The waiting
field of the message is not destructured and hence ignored: a waiting
report falls into the failure branch. -/
def handlePackageResult (s : RunState) (msg : ResultMsg) : RunState :=
  if msg.success then
    let s1 :=
      if msg.alreadyConfigured ∧ ¬ msg.completed then
        { s with
          skipped := pushIfAbsent msg.packageName s.skipped
          completed := s.completed.filter (fun p => p != msg.packageName) }
      else if msg.notFound then
        { s with skipped := pushIfAbsent msg.packageName s.skipped }
      else
        { s with
          completed := pushIfAbsent msg.packageName s.completed
          skipped := s.skipped.filter (fun p => p != msg.packageName) }
    let shouldAutoAdvance :=
      msg.alreadyConfigured ∨ msg.notFound ∨
        (s1.config.navigationMode = "auto" ∧ s1.status = Status.running)
    if shouldAutoAdvance ∧ s1.status = Status.running then
      let s2 := { s1 with currentIndex := s1.currentIndex + 1 }
      if s2.currentIndex < s2.packages.length then s2
      else { s2 with status := Status.idle }
    else s1
  else
    { s with failed := pushIfAbsent msg.packageName s.failed }

/-!
Content-script model (content.js, second revision with delete mode).
-/

/-- Substring test mirroring JS String.prototype.includes. -/
def strContains (s pat : String) : Bool :=
  (List.range (s.length + 1)).any (fun i => pat.data.isPrefixOf (s.data.drop i))

/-- Abstract snapshot of the loaded page, carrying exactly the DOM facts
isNotFoundPage consults. -/
structure Dom where
  bodyText : String
  title : String
  hasH1 : Bool
  hasPackageClassElem : Bool
  hasAccessLink : Bool
  hasButton : Bool
deriving DecidableEq

/-- isNotFoundPage from content.js: JSON error body text, 404 title
markers, or missing page structure combined with a short body. -/
def isNotFoundPage (d : Dom) : Bool :=
  if strContains d.bodyText "\"message\":\"Not Found\"" ||
     strContains d.bodyText "\"message\": \"Not Found\"" then true
  else if strContains d.title "404" || strContains d.title "not found" then true
  else
    let hasPackageHeader := d.hasH1 || d.hasPackageClassElem
    let hasSettingsTab := d.hasAccessLink || d.hasButton
    if !hasPackageHeader && !hasSettingsTab && d.bodyText.length < 500 then true
    else false

/-- Shared advance step of the content-script outcome branches: increment
the cursor, then either mark the run idle (exhausted) or produce the next
package URL to navigate to. -/
def agentAdvance (s : RunState) : RunState × Option String :=
  let s1 := { s with currentIndex := s.currentIndex + 1 }
  if s1.packages.length ≤ s1.currentIndex then
    ({ s1 with status := Status.idle }, none)
  else (s1, some (packageUrl (s1.packages.getD s1.currentIndex "")))

/-- Observable outcome of a content-script branch: the state it writes to
storage, whether a storage write happened, the scheduled navigation (with
its setTimeout delay in milliseconds), and the packageResult message it
sends (best effort). -/
structure AgentReport where
  state : RunState
  persisted : Bool
  navTarget : Option String
  navDelayMs : Nat
  msg : Option ResultMsg
deriving DecidableEq

/-- A branch that did not fire (guard failed): no write, no navigation,
no message. -/
def noReport (s : RunState) : AgentReport :=
  { state := s, persisted := false, navTarget := none, navDelayMs := 0, msg := none }

/-- The not-found branch of handlePageLoad (content.js): guard on a
running state and the expected package; append to skipped with a
membership check, advance, persist, schedule navigation after 500ms or
mark idle, and report notFound. -/
def agentNotFound (s : RunState) : AgentReport :=
  if s.status = Status.running ∧ s.currentIndex < s.packages.length then
    let pkg := s.packages.getD s.currentIndex ""
    let s1 := { s with skipped := pushIfAbsent pkg s.skipped }
    let a := agentAdvance s1
    { state := a.1, persisted := true, navTarget := a.2
      navDelayMs := if a.2.isSome then 500 else 0
      msg := some { success := true, packageName := pkg, error := none,
                    alreadyConfigured := false, notFound := true,
                    completed := false, waiting := false } }
  else noReport s

/-- handlePageLoad's dispatch into the not-found branch: the branch fires
only when isNotFoundPage classifies the snapshot as not found. -/
def handlePageLoadNotFound (d : Dom) (s : RunState) : AgentReport :=
  if isNotFoundPage d then agentNotFound s else noReport s

/-- The visible-success-notification branch of handlePageLoad: append to
completed, advance, persist, navigate or finish, report completed. -/
def agentSuccessOnLoad (s : RunState) : AgentReport :=
  if s.status = Status.running ∧ s.currentIndex < s.packages.length then
    let pkg := s.packages.getD s.currentIndex ""
    let s1 := { s with completed := pushIfAbsent pkg s.completed }
    let a := agentAdvance s1
    { state := a.1, persisted := true, navTarget := a.2
      navDelayMs := if a.2.isSome then 500 else 0
      msg := some { success := true, packageName := pkg, error := none,
                    alreadyConfigured := false, notFound := false,
                    completed := true, waiting := false } }
  else noReport s

/-- The already-configured branch of handlePageLoad (configure mode):
append to skipped only when the package is not already in completed this
session, advance, persist, navigate or finish, and report flags that
reflect which bucket applies. -/
def agentAlreadyConfigured (s : RunState) : AgentReport :=
  if s.status = Status.running ∧ s.currentIndex < s.packages.length then
    let pkg := s.packages.getD s.currentIndex ""
    let wasCompleted := pkg ∈ s.completed
    let s1 := if wasCompleted then s
              else { s with skipped := pushIfAbsent pkg s.skipped }
    let a := agentAdvance s1
    { state := a.1, persisted := true, navTarget := a.2
      navDelayMs := if a.2.isSome then 500 else 0
      msg := some { success := true, packageName := pkg, error := none,
                    alreadyConfigured := ¬ wasCompleted, notFound := false,
                    completed := wasCompleted, waiting := false } }
  else noReport s

/-- The delete-mode branch when no Delete control is present: treat as a
skip, advance, persist, navigate or finish, report alreadyConfigured. -/
def agentDeleteNoButton (s : RunState) : AgentReport :=
  if s.status = Status.running ∧ s.currentIndex < s.packages.length then
    let pkg := s.packages.getD s.currentIndex ""
    let s1 := { s with skipped := pushIfAbsent pkg s.skipped }
    let a := agentAdvance s1
    { state := a.1, persisted := true, navTarget := a.2
      navDelayMs := if a.2.isSome then 500 else 0
      msg := some { success := true, packageName := pkg, error := none,
                    alreadyConfigured := true, notFound := false,
                    completed := false, waiting := false } }
  else noReport s

/-- The success observer's direct storage write (setupSuccessObserver):
append the captured package name to completed with a membership check;
the cursor is not touched. -/
def observerSuccessWrite (pkg : String) (s : RunState) : RunState :=
  { s with completed := pushIfAbsent pkg s.completed }

/-- The packageResult message sent by the challenge branches of
handlePageLoad before polling: success false, the waiting flag set, and
the current package's name. -/
def agentChallengeReport (s : RunState) : ResultMsg :=
  { success := false, packageName := s.packages.getD s.currentIndex "",
    error := some "Waiting for Cloudflare challenge...",
    alreadyConfigured := false, notFound := false,
    completed := false, waiting := true }

/-!
Run transition system: one event per operation that records an outcome
during a run (operator buttons, popup message handling, content-script
direct writes).
-/

/-- Events that mutate the shared record during a run. -/
inductive RunOp where
  | pause
  | resume
  | next
  | result (msg : ResultMsg)
  | pageNotFound
  | pageSuccess
  | pageAlreadyConfigured
  | pageDeleteNoButton
  | observerSuccess (pkg : String)
deriving DecidableEq

/-- Effect of one event on the shared record. -/
def applyOp (op : RunOp) (s : RunState) : RunState :=
  match op with
  | RunOp.pause => handlePause s
  | RunOp.resume => (handleResume s).1
  | RunOp.next => (handleNext s).1
  | RunOp.result m => handlePackageResult s m
  | RunOp.pageNotFound => (agentNotFound s).state
  | RunOp.pageSuccess => (agentSuccessOnLoad s).state
  | RunOp.pageAlreadyConfigured => (agentAlreadyConfigured s).state
  | RunOp.pageDeleteNoButton => (agentDeleteNoButton s).state
  | RunOp.observerSuccess pkg => observerSuccessWrite pkg s

/-- A run: fold a sequence of events over a state. -/
def runTrace (s : RunState) (ops : List RunOp) : RunState :=
  ops.foldl (fun t op => applyOp op t) s

/-- The state handleStart persists on acceptance: a fresh running record
over the parsed packages. -/
def startedState (pkgs : List String) (cfg : Config) : RunState :=
  { status := Status.running, packages := pkgs, currentIndex := 0,
    completed := [], failed := [], skipped := [], config := cfg }

/-- True for events that do not go through the popup message handler
(operator buttons and the content-script direct writes). -/
def msgFree : RunOp → Bool
  | RunOp.result _ => false
  | _ => true

/-- The package at position i is recorded in some outcome bucket. -/
def bucketed (s : RunState) (p : String) : Prop :=
  p ∈ s.completed ∨ p ∈ s.failed ∨ p ∈ s.skipped

/-- Every package the cursor has passed is recorded in some bucket. -/
def covered (s : RunState) : Prop :=
  ∀ i, i < s.currentIndex → i < s.packages.length →
    bucketed s (s.packages.getD i "")

/-!
Batch checker model (the Node script: checkPackageExists and the main
batch loop over CONCURRENCY-sized slices).
-/

/-- Outcome of the registry probe fetch: an HTTP response with a status
code, or a thrown network/fetch error. -/
inductive FetchResult where
  | ok (status : Nat)
  | fetchFailed
deriving DecidableEq

/-- checkPackageExists from the Node script: true exactly when the fetch
succeeded with status 200; a thrown fetch error yields false. -/
def checkPackageExists (r : FetchResult) : Bool :=
  match r with
  | FetchResult.ok status => status == 200
  | FetchResult.fetchFailed => false

/-- Batch size of the main loop. -/
def CONCURRENCY : Nat := 20

/-- The main batch loop of the Node script: slice the package list into
CONCURRENCY-sized batches, probe each package, and append each package to
published when the probe returned true and to unpublished otherwise. -/
def mainCheckLoop (resp : String → FetchResult) (pkgs : List String) :
    List String × List String :=
  if pkgs.isEmpty then ([], [])
  else
    let batch := pkgs.take CONCURRENCY
    let rest := pkgs.drop CONCURRENCY
    let part := batch.partition (fun p => checkPackageExists (resp p))
    let tailRes := mainCheckLoop resp rest
    (part.1 ++ tailRes.1, part.2 ++ tailRes.2)
termination_by pkgs.length
decreasing_by
  simp only [List.length_drop]
  have hlen : 0 < pkgs.length := by
    cases pkgs with
    | nil => simp at *
    | cons a t => simp
  exact Nat.sub_lt hlen (by decide)

/-!
Publisher model (publish-unpublished.sh).  The script is embedded as a
pure function producing the sequence of shell effects it performs:
echoes, pnpm publish invocations, file writes and exits.  The top-of-file
checks (list file present, op CLI installed) are assumed to have passed.
-/

/-- One observable shell effect of the publisher script. -/
inductive ShellEff where
  | echoLine (line : String)
  | runPublish (pkg : String) (otp : String)
  | writeFile (path : String) (content : String)
  | exitWith (code : Nat)
deriving DecidableEq

/-- Result of running the publisher: its effect trace, the SUCCEEDED and
FAILED arrays, and whether it aborted via exit 1. -/
structure PubRun where
  effects : List ShellEff
  succeeded : List String
  failed : List String
  aborted : Bool
deriving DecidableEq

/-- The separator line echoed by the script. -/
def sepLine : String := "=========================================="

/-- A single quote character, for the echoed retry command. -/
def squote : String := String.singleton (Char.ofNat 39)

/-- The while-read loop of publish-unpublished.sh.  otps i is the OTP the
secrets CLI returns on the i-th iteration (0-based); pub pkg is whether
the pnpm publish command for pkg succeeds.  An empty OTP aborts the whole
run with exit 1 before the publish command is invoked. -/
def publishLoopGo (otps : Nat → String) (pub : String → Bool) (total : Nat) :
    List String → Nat → List String → List String → PubRun
  | [], _, succ, fail =>
      { effects := [], succeeded := succ, failed := fail, aborted := false }
  | pkg :: rest, i, succ, fail =>
      let hdr := [ShellEff.echoLine sepLine,
                  ShellEff.echoLine ("[" ++ toString (i + 1) ++ "/" ++ toString total
                    ++ "] Publishing " ++ pkg),
                  ShellEff.echoLine sepLine]
      if otps i = "" then
        { effects := hdr ++ [ShellEff.echoLine "Error: Could not get OTP from 1Password",
                             ShellEff.exitWith 1]
          succeeded := succ, failed := fail, aborted := true }
      else
        let ok := pub pkg
        let resultLine := if ok then ShellEff.echoLine ("✓ Successfully published " ++ pkg)
                          else ShellEff.echoLine ("✗ Failed to publish " ++ pkg)
        let succ1 := if ok then succ ++ [pkg] else succ
        let fail1 := if ok then fail else fail ++ [pkg]
        let sleepEffs := if i + 1 < total
          then [ShellEff.echoLine "Waiting 5s before next publish..."] else []
        let restRun := publishLoopGo otps pub total rest (i + 1) succ1 fail1
        { effects := hdr ++ [ShellEff.runPublish pkg (otps i), resultLine]
            ++ sleepEffs ++ [ShellEff.echoLine ""] ++ restRun.effects
          succeeded := restRun.succeeded, failed := restRun.failed
          aborted := restRun.aborted }

/-- The echoed retry command for the FAILED array: a printf redirected
into failed-packages.txt, printed as text (the redirection sits inside
the quoted echo argument, so the script itself writes nothing). -/
def retryCommandLine (failed : List String) : String :=
  "  printf " ++ squote ++ "%s\\n" ++ squote ++ " "
    ++ String.intercalate " " failed ++ " > failed-packages.txt"

/-- The SUMMARY block echoed after the loop (publish-unpublished.sh lines
63-81).  Every effect is an echo: no file is written. -/
def summaryEffects (succ fail : List String) : List ShellEff :=
  [ShellEff.echoLine sepLine, ShellEff.echoLine "SUMMARY", ShellEff.echoLine sepLine,
   ShellEff.echoLine ("Succeeded: " ++ toString succ.length),
   ShellEff.echoLine ("Failed: " ++ toString fail.length)]
  ++ (if fail.length > 0 then
        [ShellEff.echoLine "", ShellEff.echoLine "Failed packages:"]
        ++ fail.map (fun pkg => ShellEff.echoLine ("  - " ++ pkg))
        ++ [ShellEff.echoLine "", ShellEff.echoLine "To retry failed packages, run:",
            ShellEff.echoLine (retryCommandLine fail),
            ShellEff.echoLine "  ./tools/npm-trusted-publisher/publish-unpublished.sh failed-packages.txt"]
      else [])
  ++ [ShellEff.echoLine sepLine]

/-- The whole publisher script: header echoes, the loop, then (unless the
loop aborted with exit 1) the summary block. -/
def publishScriptRun (otps : Nat → String) (pub : String → Bool)
    (pkgs : List String) : PubRun :=
  let header := [ShellEff.echoLine ("Publishing " ++ toString pkgs.length ++ " packages..."),
                 ShellEff.echoLine ""]
  let loop := publishLoopGo otps pub pkgs.length pkgs 0 [] []
  if loop.aborted then { loop with effects := header ++ loop.effects }
  else { loop with effects := header ++ loop.effects ++ summaryEffects loop.succeeded loop.failed }

/-- True for file-writing effects. -/
def isFileWrite : ShellEff → Bool
  | ShellEff.writeFile _ _ => true
  | _ => false

/-- The pnpm publish invocations of an effect trace, in order. -/
def invokedPkgs (effs : List ShellEff) : List String :=
  effs.filterMap (fun e =>
    match e with
    | ShellEff.runPublish p _ => some p
    | _ => none)

/-!
Concrete scenario data used by the claim theorems below.
-/

/-- The already-configured report for package "a" (alreadyConfigured set,
completed clear), as content.js sends it for a package that was
configured before the session. -/
def acReportA : ResultMsg :=
  { success := true, packageName := "a", error := none,
    alreadyConfigured := true, notFound := false, completed := false,
    waiting := false }

/-- A running one-package state whose current package "a" already sits in
the skipped bucket. -/
def skippedAState : RunState :=
  { startedState ["a"] defaultConfig with skipped := ["a"] }

/-- A running one-package state whose current package "a" already sits in
the completed bucket. -/
def completedAState : RunState :=
  { startedState ["a"] defaultConfig with completed := ["a"] }

/-- A running one-package state whose current package "b" already sits in
the skipped bucket. -/
def skippedBState : RunState :=
  { startedState ["b"] defaultConfig with skipped := ["b"] }

/-- A stored state that already holds the package list ["a"] (and the
default config with owner "dxos"). -/
def storedAState : RunState := { initState with packages := ["a"] }

/-- Form inputs with an empty package textarea and an owner field that
differs from the stored config. -/
def emptyListForm : FormInputs :=
  { owner := "newowner", repository := "dxos", workflow := "publish-all.yml",
    environment := "", navigationMode := "manual", autoSubmit := "false",
    delay := "2", packagesText := "" }

/-- An event interleaving over the single package "a": pause, the agent's
already-configured report processed by the popup while paused (buckets
updated, no advance), resume, then the operator presses next. -/
def doubleBucketTrace : List RunOp :=
  [RunOp.pause, RunOp.result acReportA, RunOp.resume, RunOp.next]

/-!
Helper lemmas.
-/

theorem mem_pushIfAbsent_self (p : String) (l : List String) :
    p ∈ pushIfAbsent p l := by
  unfold pushIfAbsent
  split
  · assumption
  · simp

theorem mem_pushIfAbsent_of_mem {q : String} {l : List String} (p : String)
    (h : q ∈ l) : q ∈ pushIfAbsent p l := by
  unfold pushIfAbsent
  split
  · exact h
  · exact List.mem_append_left _ h

theorem not_mem_filter_ne (p : String) (l : List String) :
    p ∉ l.filter (fun q => q != p) := by
  intro h
  have h2 := List.mem_filter.mp h
  simp at h2

theorem agentAdvance_fields (s : RunState) :
    (agentAdvance s).1.packages = s.packages
    ∧ (agentAdvance s).1.currentIndex = s.currentIndex + 1
    ∧ (agentAdvance s).1.completed = s.completed
    ∧ (agentAdvance s).1.failed = s.failed
    ∧ (agentAdvance s).1.skipped = s.skipped := by
  simp only [agentAdvance]
  split <;> simp

theorem agentAdvance_idx (s : RunState) :
    (agentAdvance s).1.currentIndex = s.currentIndex + 1 :=
  (agentAdvance_fields s).2.1

theorem processCurrentPackage_fields (s : RunState) :
    (processCurrentPackage s).1.packages = s.packages
    ∧ (processCurrentPackage s).1.currentIndex = s.currentIndex
    ∧ (processCurrentPackage s).1.completed = s.completed
    ∧ (processCurrentPackage s).1.failed = s.failed
    ∧ (processCurrentPackage s).1.skipped = s.skipped := by
  simp only [processCurrentPackage]
  split_ifs <;> simp

/-!
Claim theorems.
-/

/-- C1 counterexample: the claim fails on the code.  In a running state
whose current package "a" sits in the skipped bucket, the next command
(an outcome-recording operation that reclassifies "a" into completed)
leaves "a" in skipped as well, so "a" is a member of two buckets. -/
theorem c1_counterexample :
    "a" ∈ (handleNext skippedAState).1.completed
    ∧ "a" ∈ (handleNext skippedAState).1.skipped := by
  decide

/-- C1 (amended): only the popup packageResult handler removes a package
from the opposite bucket, and only in two of its branches: the
already-configured branch removes the package from completed, and the
plain-success branch removes it from skipped.  The notFound branch, the
next command, and the content-script direct writes insert with a
membership check only, so membership in two buckets is possible. -/
theorem c1_reclassify_removal (s : RunState) (msg : ResultMsg)
    (hs : msg.success = true) :
    ((msg.alreadyConfigured = true ∧ msg.completed = false) →
       msg.packageName ∉ (handlePackageResult s msg).completed)
    ∧ ((msg.alreadyConfigured = false ∨ msg.completed = true) →
       msg.notFound = false →
       msg.packageName ∉ (handlePackageResult s msg).skipped) := by
  constructor
  · rintro ⟨hac, hcc⟩
    simp only [handlePackageResult, hs, hac, hcc]
    split_ifs <;> simp_all [List.mem_filter]
  · intro hor hnf
    rcases hor with h | h <;>
    · simp only [handlePackageResult, hs, hnf, h]
      split_ifs <;> simp_all [List.mem_filter]

/-- C1 witness: the amended theorem applied at a concrete state and
message (an already-configured report for "a" removes "a" from the
completed bucket). -/
theorem c1_witness :
    "a" ∉ (handlePackageResult completedAState acReportA).completed :=
  (c1_reclassify_removal completedAState acReportA rfl).1 ⟨rfl, rfl⟩

/-- C2: the code contradicts the claim.  The content script reports the
challenge interstitial with a non-terminal waiting flag, but the popup
handler destructures the message without the waiting field, takes the
failure branch, and appends the current package to the failed bucket. -/
theorem c2_waiting_marks_failed :
    (handlePackageResult (startedState ["x"] defaultConfig)
      (agentChallengeReport (startedState ["x"] defaultConfig))).failed = ["x"]
    ∧ (agentChallengeReport (startedState ["x"] defaultConfig)).waiting = true := by
  decide

/-- C3 counterexample: the claim fails on the code.  With a stored state
holding package list ["a"] and owner "dxos", starting from a form whose
package textarea is empty and whose owner field reads "newowner" is
rejected, yet the config has been overwritten, the package list has been
replaced by the empty parse, and a persist has already happened. -/
theorem c3_counterexample :
    (handleStart storedAState emptyListForm).accepted = false
    ∧ (handleStart storedAState emptyListForm).persists ≠ []
    ∧ (handleStart storedAState emptyListForm).state.config.owner
        ≠ storedAState.config.owner
    ∧ (handleStart storedAState emptyListForm).state.packages
        ≠ storedAState.packages := by
  decide

/-- C3 (amended): with an empty parsed package list, start is rejected
with status, cursor and all outcome buckets untouched; but before the
rejection check the config has been rebuilt from the form and persisted
once, and the parsed (empty) package list has been assigned. -/
theorem c3_start_rejection (s : RunState) (f : FormInputs)
    (h : parsePackages f.packagesText = []) :
    (handleStart s f).accepted = false
    ∧ (handleStart s f).state.status = s.status
    ∧ (handleStart s f).state.currentIndex = s.currentIndex
    ∧ (handleStart s f).state.completed = s.completed
    ∧ (handleStart s f).state.failed = s.failed
    ∧ (handleStart s f).state.skipped = s.skipped
    ∧ (handleStart s f).state.config = configOfForm f
    ∧ (handleStart s f).state.packages = []
    ∧ (handleStart s f).persists = [{ s with config := configOfForm f }]
    ∧ (handleStart s f).navTarget = none := by
  simp [handleStart, h]

theorem publishLoopGo_no_write (otps : Nat → String) (pub : String → Bool)
    (total : Nat) : ∀ (pkgs : List String) (i : Nat) (succ fail : List String),
    (publishLoopGo otps pub total pkgs i succ fail).effects.filter isFileWrite = [] := by
  intro pkgs
  induction pkgs with
  | nil => intro i succ fail; simp [publishLoopGo]
  | cons pkg rest ih =>
    intro i succ fail
    simp only [publishLoopGo]
    split_ifs <;> simp [List.filter_append, isFileWrite, ih]

theorem summaryEffects_no_write (succ fail : List String) :
    (summaryEffects succ fail).filter isFileWrite = [] := by
  simp only [summaryEffects]
  split_ifs <;> simp [List.filter_append, isFileWrite, List.filter_map]

theorem mem_summaryEffects_each (succ fail : List String) (hf : 0 < fail.length)
    (p : String) (hp : p ∈ fail) :
    ShellEff.echoLine ("  - " ++ p) ∈ summaryEffects succ fail := by
  unfold summaryEffects
  rw [if_pos hf]
  exact List.mem_append_left _ (List.mem_append_right _
    (List.mem_append_left _ (List.mem_append_right _ (List.mem_map_of_mem _ hp))))

theorem mem_summaryEffects_retry (succ fail : List String) (hf : 0 < fail.length) :
    ShellEff.echoLine (retryCommandLine fail) ∈ summaryEffects succ fail
    ∧ ShellEff.echoLine "  ./tools/npm-trusted-publisher/publish-unpublished.sh failed-packages.txt"
        ∈ summaryEffects succ fail := by
  unfold summaryEffects
  rw [if_pos hf]
  constructor <;>
    exact List.mem_append_left _ (List.mem_append_right _
      (List.mem_append_right _ (by simp)))

/-- C4 counterexample: the claim fails on the code.  A run over the single
package @dxos/a whose publish command fails ends with @dxos/a in FAILED,
yet the effect trace of the whole script contains no file write at all:
the redirection into failed-packages.txt only occurs inside the text of
an echoed command. -/
theorem c4_counterexample :
    (publishScriptRun (fun _ => "111111") (fun _ => false) ["@dxos/a"]).failed = ["@dxos/a"]
    ∧ (publishScriptRun (fun _ => "111111") (fun _ => false) ["@dxos/a"]).aborted = false
    ∧ (publishScriptRun (fun _ => "111111") (fun _ => false)
        ["@dxos/a"]).effects.filter isFileWrite = []
    ∧ ShellEff.echoLine (retryCommandLine ["@dxos/a"])
        ∈ (publishScriptRun (fun _ => "111111") (fun _ => false) ["@dxos/a"]).effects := by
  decide

/-- C4 (amended): on partial failure the publisher prints each failed
package name and prints the retry command (the printf redirect into
failed-packages.txt and the re-invocation), but it writes no file itself:
the script performs no file write anywhere. -/
theorem c4_summary_prints_retry (otps : Nat → String) (pub : String → Bool)
    (pkgs : List String)
    (hab : (publishScriptRun otps pub pkgs).aborted = false)
    (hf : (publishScriptRun otps pub pkgs).failed ≠ []) :
    (∀ p ∈ (publishScriptRun otps pub pkgs).failed,
      ShellEff.echoLine ("  - " ++ p) ∈ (publishScriptRun otps pub pkgs).effects)
    ∧ ShellEff.echoLine (retryCommandLine (publishScriptRun otps pub pkgs).failed)
        ∈ (publishScriptRun otps pub pkgs).effects
    ∧ ShellEff.echoLine "  ./tools/npm-trusted-publisher/publish-unpublished.sh failed-packages.txt"
        ∈ (publishScriptRun otps pub pkgs).effects
    ∧ (publishScriptRun otps pub pkgs).effects.filter isFileWrite = [] := by
  have hnw := publishLoopGo_no_write otps pub pkgs.length pkgs 0 [] []
  by_cases hc : (publishLoopGo otps pub pkgs.length pkgs 0 [] []).aborted
  · exfalso
    simp [publishScriptRun, hc] at hab
  · have heff : (publishScriptRun otps pub pkgs).effects
        = ([ShellEff.echoLine ("Publishing " ++ toString pkgs.length ++ " packages..."),
            ShellEff.echoLine ""]
            ++ (publishLoopGo otps pub pkgs.length pkgs 0 [] []).effects)
          ++ summaryEffects (publishLoopGo otps pub pkgs.length pkgs 0 [] []).succeeded
              (publishLoopGo otps pub pkgs.length pkgs 0 [] []).failed := by
      simp [publishScriptRun, hc]
    have hfl : (publishScriptRun otps pub pkgs).failed
        = (publishLoopGo otps pub pkgs.length pkgs 0 [] []).failed := by
      simp [publishScriptRun, hc]
    rw [hfl] at hf
    have hlen : 0 < (publishLoopGo otps pub pkgs.length pkgs 0 [] []).failed.length :=
      List.length_pos.mpr hf
    refine ⟨?_, ?_, ?_, ?_⟩
    · intro p hp
      rw [hfl] at hp
      rw [heff]
      exact List.mem_append_right _ (mem_summaryEffects_each _ _ hlen p hp)
    · rw [heff, hfl]
      exact List.mem_append_right _ (mem_summaryEffects_retry _ _ hlen).1
    · rw [heff]
      exact List.mem_append_right _ (mem_summaryEffects_retry _ _ hlen).2
    · rw [heff]
      simp [List.filter_append, hnw, summaryEffects_no_write, isFileWrite]

/-- C4 witness: the amended theorem applied to the concrete failed run of
the counterexample scenario. -/
theorem c4_witness :
    ShellEff.echoLine (retryCommandLine
        (publishScriptRun (fun _ => "111111") (fun _ => false) ["@dxos/a"]).failed)
      ∈ (publishScriptRun (fun _ => "111111") (fun _ => false) ["@dxos/a"]).effects
    ∧ (publishScriptRun (fun _ => "111111") (fun _ => false)
        ["@dxos/a"]).effects.filter isFileWrite = [] := by
  have h := c4_summary_prints_retry (fun _ => "111111") (fun _ => false) ["@dxos/a"]
    (by decide) (by decide)
  exact ⟨h.2.1, h.2.2.2⟩

/-- C6 counterexample: the claim fails on the code.  With the current
package "b" already classified in skipped (and absent from completed and
failed), the next command still adds "b" to completed: the code consults
only completed and failed, not skipped. -/
theorem c6_counterexample :
    "b" ∈ skippedBState.skipped
    ∧ "b" ∈ (handleNext skippedBState).1.completed := by
  decide

/-- C6 (amended): the next command adds the current package to completed
exactly when it is not already in completed or failed (membership in
skipped is not consulted), then increments the cursor, and either sets
status to idle when the cursor reaches the end or, when still running,
navigates to the next package's URL. -/
theorem c6_next_marks_completed (s : RunState)
    (h : s.currentIndex < s.packages.length) :
    ((handleNext s).1.completed =
      if s.packages.getD s.currentIndex "" ≠ ""
          ∧ s.packages.getD s.currentIndex "" ∉ s.completed
          ∧ s.packages.getD s.currentIndex "" ∉ s.failed
       then s.completed ++ [s.packages.getD s.currentIndex ""] else s.completed)
    ∧ (handleNext s).1.currentIndex = s.currentIndex + 1
    ∧ (handleNext s).1.failed = s.failed
    ∧ (handleNext s).1.skipped = s.skipped
    ∧ (s.packages.length ≤ s.currentIndex + 1 →
        (handleNext s).1.status = Status.idle ∧ (handleNext s).2 = none)
    ∧ (s.currentIndex + 1 < s.packages.length → s.status = Status.running →
        (handleNext s).2 = some (packageUrl (s.packages.getD (s.currentIndex + 1) ""))) := by
  refine ⟨?_, ?_, ?_, ?_, ?_, ?_⟩
  · simp only [handleNext]
    split
    · simp [List.getD]
    · simp [processCurrentPackage, List.getD]
      split_ifs <;> simp [List.getD]
  · simp only [handleNext]
    split
    · simp
    · simp [processCurrentPackage]
      split_ifs <;> simp
  · simp only [handleNext]
    split
    · simp
    · simp [processCurrentPackage]
      split_ifs <;> simp
  · simp only [handleNext]
    split
    · simp
    · simp [processCurrentPackage]
      split_ifs <;> simp
  · intro hend
    simp only [handleNext]
    split
    · simp
    · rename_i hlt
      exfalso
      omega
  · intro hmid hrun
    simp only [handleNext]
    split
    · rename_i hle
      exfalso
      omega
    · simp [processCurrentPackage, hrun, List.getD,
        show ¬ (s.packages.length ≤ s.currentIndex + 1) from by omega]

/-- C6 witness: the amended theorem applied at the counterexample state,
showing "b" lands in completed despite sitting in skipped. -/
theorem c6_witness :
    (handleNext skippedBState).1.completed = ["b"]
    ∧ (handleNext skippedBState).1.currentIndex = 1 := by
  have h := c6_next_marks_completed skippedBState (by decide)
  refine ⟨?_, h.2.1⟩
  rw [h.1]
  decide

/-- C8: confirmed.  When the page snapshot classifies as not found and the
branch fires for the expected package of a running state, the package is
appended to skipped with a membership check, the cursor is incremented,
the state is persisted, the run is marked idle when exhausted or a
navigation to the next package URL is scheduled after 500 milliseconds,
and the reported outcome carries notFound true. -/
theorem c8_not_found_branch (d : Dom) (s : RunState)
    (hd : isNotFoundPage d = true)
    (h1 : s.status = Status.running)
    (h2 : s.currentIndex < s.packages.length) :
    ((handlePageLoadNotFound d s).state.skipped
        = pushIfAbsent (s.packages.getD s.currentIndex "") s.skipped)
    ∧ s.packages.getD s.currentIndex "" ∈ (handlePageLoadNotFound d s).state.skipped
    ∧ (handlePageLoadNotFound d s).state.currentIndex = s.currentIndex + 1
    ∧ (handlePageLoadNotFound d s).state.completed = s.completed
    ∧ (handlePageLoadNotFound d s).state.failed = s.failed
    ∧ (handlePageLoadNotFound d s).persisted = true
    ∧ (s.packages.length ≤ s.currentIndex + 1 →
        (handlePageLoadNotFound d s).state.status = Status.idle
        ∧ (handlePageLoadNotFound d s).navTarget = none)
    ∧ (s.currentIndex + 1 < s.packages.length →
        (handlePageLoadNotFound d s).navDelayMs = 500
        ∧ (handlePageLoadNotFound d s).navTarget
            = some (packageUrl (s.packages.getD (s.currentIndex + 1) "")))
    ∧ (handlePageLoadNotFound d s).msg
        = some { success := true, packageName := s.packages.getD s.currentIndex "",
                 error := none, alreadyConfigured := false, notFound := true,
                 completed := false, waiting := false } := by
  simp only [handlePageLoadNotFound, hd, if_true]
  simp only [agentNotFound, h1, h2, and_self, if_true]
  by_cases hend : s.packages.length ≤ s.currentIndex + 1
  · simp [agentAdvance, hend, mem_pushIfAbsent_self]
  · simp [agentAdvance, hend, mem_pushIfAbsent_self]

/-- C8 witness: the theorem applied at a concrete not-found page snapshot
and a running two-package state. -/
theorem c8_witness :
    (handlePageLoadNotFound
        { bodyText := "\"message\":\"Not Found\"", title := "", hasH1 := false,
          hasPackageClassElem := false, hasAccessLink := false, hasButton := false }
        (startedState ["a", "b"] defaultConfig)).state.currentIndex = 1
    ∧ (handlePageLoadNotFound
        { bodyText := "\"message\":\"Not Found\"", title := "", hasH1 := false,
          hasPackageClassElem := false, hasAccessLink := false, hasButton := false }
        (startedState ["a", "b"] defaultConfig)).persisted = true := by
  have h := c8_not_found_branch
    { bodyText := "\"message\":\"Not Found\"", title := "", hasH1 := false,
      hasPackageClassElem := false, hasAccessLink := false, hasButton := false }
    (startedState ["a", "b"] defaultConfig) (by decide) (by decide) (by decide)
  exact ⟨h.2.2.1, h.2.2.2.2.2.1⟩

theorem handleNext_fields (s : RunState) :
    ((handleNext s).1.completed =
      if s.packages.getD s.currentIndex "" ≠ ""
          ∧ s.packages.getD s.currentIndex "" ∉ s.completed
          ∧ s.packages.getD s.currentIndex "" ∉ s.failed
       then s.completed ++ [s.packages.getD s.currentIndex ""] else s.completed)
    ∧ (handleNext s).1.failed = s.failed
    ∧ (handleNext s).1.skipped = s.skipped
    ∧ (handleNext s).1.currentIndex = s.currentIndex + 1
    ∧ (handleNext s).1.packages = s.packages := by
  have hpc := processCurrentPackage_fields
  simp only [handleNext]
  split
  · refine ⟨?_, ?_, ?_, ?_, ?_⟩ <;> simp [List.getD]
  · refine ⟨?_, ?_, ?_, ?_, ?_⟩
    · rw [(hpc _).2.2.1]
    · rw [(hpc _).2.2.2.1]
    · rw [(hpc _).2.2.2.2]
    · rw [(hpc _).2.1]
    · rw [(hpc _).1]

theorem applyOp_packages (op : RunOp) (s : RunState) :
    (applyOp op s).packages = s.packages := by
  cases op with
  | pause => rfl
  | resume => exact (processCurrentPackage_fields _).1
  | next => exact (handleNext_fields s).2.2.2.2
  | result m =>
      simp only [applyOp, handlePackageResult]
      split_ifs <;> simp
  | pageNotFound =>
      simp only [applyOp, agentNotFound, noReport]
      by_cases hg : s.status = Status.running ∧ s.currentIndex < s.packages.length
      · rw [if_pos hg]; exact (agentAdvance_fields _).1
      · rw [if_neg hg]
  | pageSuccess =>
      simp only [applyOp, agentSuccessOnLoad, noReport]
      by_cases hg : s.status = Status.running ∧ s.currentIndex < s.packages.length
      · rw [if_pos hg]; exact (agentAdvance_fields _).1
      · rw [if_neg hg]
  | pageAlreadyConfigured =>
      simp only [applyOp, agentAlreadyConfigured, noReport]
      by_cases hg : s.status = Status.running ∧ s.currentIndex < s.packages.length
      · rw [if_pos hg]
        by_cases hw : s.packages.getD s.currentIndex "" ∈ s.completed
        · rw [if_pos hw]; exact (agentAdvance_fields _).1
        · rw [if_neg hw]; exact (agentAdvance_fields _).1
      · rw [if_neg hg]
  | pageDeleteNoButton =>
      simp only [applyOp, agentDeleteNoButton, noReport]
      by_cases hg : s.status = Status.running ∧ s.currentIndex < s.packages.length
      · rw [if_pos hg]; exact (agentAdvance_fields _).1
      · rw [if_neg hg]
  | observerSuccess pkg => rfl

theorem covered_step (s t : RunState)
    (hpk : t.packages = s.packages)
    (hidx : t.currentIndex = s.currentIndex + 1)
    (hmono : ∀ p, bucketed s p → bucketed t p)
    (hcur : s.currentIndex < s.packages.length →
      bucketed t (s.packages.getD s.currentIndex ""))
    (hc : covered s) : covered t := by
  intro i hi hlen
  rw [hpk]
  rw [hidx] at hi
  rw [hpk] at hlen
  rcases Nat.lt_succ_iff_lt_or_eq.mp hi with hlt | heq
  · exact hmono _ (hc i hlt hlen)
  · subst heq
    exact hcur hlen

theorem covered_stay (s t : RunState)
    (hpk : t.packages = s.packages)
    (hidx : t.currentIndex = s.currentIndex)
    (hmono : ∀ p, bucketed s p → bucketed t p)
    (hc : covered s) : covered t := by
  intro i hi hlen
  rw [hpk]
  rw [hidx] at hi
  rw [hpk] at hlen
  exact hmono _ (hc i hi hlen)

theorem getD_mem_of_lt {l : List String} {i : Nat} (h : i < l.length) :
    l.getD i "" ∈ l := by
  rw [List.getD_eq_getElem l "" h]
  exact List.getElem_mem h

theorem applyOp_covered (op : RunOp) (s : RunState)
    (hop : msgFree op = true) (hemp : "" ∉ s.packages)
    (hc : covered s) : covered (applyOp op s) := by
  cases op with
  | pause => exact covered_stay s _ rfl rfl (fun p hb => hb) hc
  | resume =>
      simp only [applyOp, handleResume]
      refine covered_stay s _ (processCurrentPackage_fields _).1
        (processCurrentPackage_fields _).2.1 ?_ hc
      intro p hb
      unfold bucketed at hb ⊢
      rw [(processCurrentPackage_fields _).2.2.1,
        (processCurrentPackage_fields _).2.2.2.1,
        (processCurrentPackage_fields _).2.2.2.2]
      exact hb
  | next =>
      simp only [applyOp]
      have hf := handleNext_fields s
      refine covered_step s _ hf.2.2.2.2 hf.2.2.2.1 ?_ ?_ hc
      · intro p hb
        unfold bucketed at hb ⊢
        rw [hf.1, hf.2.1, hf.2.2.1]
        rcases hb with h | h | h
        · left
          split
          · exact List.mem_append_left _ h
          · exact h
        · exact Or.inr (Or.inl h)
        · exact Or.inr (Or.inr h)
      · intro hlt
        unfold bucketed
        rw [hf.1, hf.2.1]
        have hne : s.packages.getD s.currentIndex "" ≠ "" := by
          intro hcontra
          exact hemp (hcontra ▸ getD_mem_of_lt hlt)
        by_cases h1 : s.packages.getD s.currentIndex "" ∈ s.completed
        · left
          split
          · exact List.mem_append_left _ h1
          · exact h1
        · by_cases h2 : s.packages.getD s.currentIndex "" ∈ s.failed
          · exact Or.inr (Or.inl h2)
          · left
            rw [if_pos ⟨hne, h1, h2⟩]
            simp
  | result m => simp [msgFree] at hop
  | pageNotFound =>
      simp only [applyOp, agentNotFound, noReport]
      by_cases hg : s.status = Status.running ∧ s.currentIndex < s.packages.length
      · rw [if_pos hg]
        refine covered_step s _ (agentAdvance_fields _).1
          (agentAdvance_fields _).2.1 ?_ ?_ hc
        · intro p hb
          unfold bucketed at hb ⊢
          rw [(agentAdvance_fields _).2.2.1, (agentAdvance_fields _).2.2.2.1,
            (agentAdvance_fields _).2.2.2.2]
          rcases hb with h | h | h
          · exact Or.inl h
          · exact Or.inr (Or.inl h)
          · exact Or.inr (Or.inr (mem_pushIfAbsent_of_mem _ h))
        · intro hlt
          unfold bucketed
          rw [(agentAdvance_fields _).2.2.2.2]
          exact Or.inr (Or.inr (mem_pushIfAbsent_self _ _))
      · rw [if_neg hg]
        exact hc
  | pageSuccess =>
      simp only [applyOp, agentSuccessOnLoad, noReport]
      by_cases hg : s.status = Status.running ∧ s.currentIndex < s.packages.length
      · rw [if_pos hg]
        refine covered_step s _ (agentAdvance_fields _).1
          (agentAdvance_fields _).2.1 ?_ ?_ hc
        · intro p hb
          unfold bucketed at hb ⊢
          rw [(agentAdvance_fields _).2.2.1, (agentAdvance_fields _).2.2.2.1,
            (agentAdvance_fields _).2.2.2.2]
          rcases hb with h | h | h
          · exact Or.inl (mem_pushIfAbsent_of_mem _ h)
          · exact Or.inr (Or.inl h)
          · exact Or.inr (Or.inr h)
        · intro hlt
          unfold bucketed
          rw [(agentAdvance_fields _).2.2.1]
          exact Or.inl (mem_pushIfAbsent_self _ _)
      · rw [if_neg hg]
        exact hc
  | pageAlreadyConfigured =>
      simp only [applyOp, agentAlreadyConfigured, noReport]
      by_cases hg : s.status = Status.running ∧ s.currentIndex < s.packages.length
      · rw [if_pos hg]
        by_cases hw : s.packages.getD s.currentIndex "" ∈ s.completed
        · rw [if_pos hw]
          refine covered_step s _ (agentAdvance_fields _).1
            (agentAdvance_fields _).2.1 ?_ ?_ hc
          · intro p hb
            unfold bucketed at hb ⊢
            rw [(agentAdvance_fields _).2.2.1, (agentAdvance_fields _).2.2.2.1,
              (agentAdvance_fields _).2.2.2.2]
            exact hb
          · intro hlt
            unfold bucketed
            rw [(agentAdvance_fields _).2.2.1]
            exact Or.inl hw
        · rw [if_neg hw]
          refine covered_step s _ (agentAdvance_fields _).1
            (agentAdvance_fields _).2.1 ?_ ?_ hc
          · intro p hb
            unfold bucketed at hb ⊢
            rw [(agentAdvance_fields _).2.2.1, (agentAdvance_fields _).2.2.2.1,
              (agentAdvance_fields _).2.2.2.2]
            rcases hb with h | h | h
            · exact Or.inl h
            · exact Or.inr (Or.inl h)
            · exact Or.inr (Or.inr (mem_pushIfAbsent_of_mem _ h))
          · intro hlt
            unfold bucketed
            rw [(agentAdvance_fields _).2.2.2.2]
            exact Or.inr (Or.inr (mem_pushIfAbsent_self _ _))
      · rw [if_neg hg]
        exact hc
  | pageDeleteNoButton =>
      simp only [applyOp, agentDeleteNoButton, noReport]
      by_cases hg : s.status = Status.running ∧ s.currentIndex < s.packages.length
      · rw [if_pos hg]
        refine covered_step s _ (agentAdvance_fields _).1
          (agentAdvance_fields _).2.1 ?_ ?_ hc
        · intro p hb
          unfold bucketed at hb ⊢
          rw [(agentAdvance_fields _).2.2.1, (agentAdvance_fields _).2.2.2.1,
            (agentAdvance_fields _).2.2.2.2]
          rcases hb with h | h | h
          · exact Or.inl h
          · exact Or.inr (Or.inl h)
          · exact Or.inr (Or.inr (mem_pushIfAbsent_of_mem _ h))
        · intro hlt
          unfold bucketed
          rw [(agentAdvance_fields _).2.2.2.2]
          exact Or.inr (Or.inr (mem_pushIfAbsent_self _ _))
      · rw [if_neg hg]
        exact hc
  | observerSuccess pkg0 =>
      refine covered_stay s _ rfl rfl ?_ hc
      intro p hb
      unfold bucketed at hb ⊢
      rcases hb with h | h | h
      · exact Or.inl (mem_pushIfAbsent_of_mem _ h)
      · exact Or.inr (Or.inl h)
      · exact Or.inr (Or.inr h)

theorem covered_runTrace (ops : List RunOp) : ∀ (s : RunState),
    (∀ op ∈ ops, msgFree op = true) → "" ∉ s.packages → covered s →
    covered (runTrace s ops) ∧ (runTrace s ops).packages = s.packages := by
  induction ops with
  | nil => intro s _ _ hc; exact ⟨hc, rfl⟩
  | cons op rest ih =>
      intro s hops hemp hc
      have hop : msgFree op = true := hops op (List.mem_cons_self _ _)
      have hrest : ∀ o ∈ rest, msgFree o = true :=
        fun o ho => hops o (List.mem_cons_of_mem _ ho)
      have h1 : covered (applyOp op s) := applyOp_covered op s hop hemp hc
      have hpk : (applyOp op s).packages = s.packages := applyOp_packages op s
      have hemp2 : "" ∉ (applyOp op s).packages := by rw [hpk]; exact hemp
      have hrec := ih (applyOp op s) hrest hemp2 h1
      have heq : runTrace s (op :: rest) = runTrace (applyOp op s) rest := rfl
      rw [heq]
      exact ⟨hrec.1, hrec.2.trans hpk⟩

/-- C5 counterexample: the claim fails on the code.  Run over the single
package "a": pause, then the agent reports already-configured (which puts
"a" into skipped without advancing since the run is paused), then resume
and press next.  The run completes (status idle, cursor past the end)
with "a" a member of both completed and skipped, not exactly one bucket. -/
theorem c5_counterexample :
    (runTrace (startedState ["a"] defaultConfig) doubleBucketTrace).status
      = Status.idle
    ∧ (runTrace (startedState ["a"] defaultConfig)
        doubleBucketTrace).packages.length
      ≤ (runTrace (startedState ["a"] defaultConfig)
        doubleBucketTrace).currentIndex
    ∧ "a" ∈ (runTrace (startedState ["a"] defaultConfig)
        doubleBucketTrace).completed
    ∧ "a" ∈ (runTrace (startedState ["a"] defaultConfig)
        doubleBucketTrace).skipped := by
  decide

/-- C5 (amended): in runs whose events are operator commands and the
content-script direct writes (no popup message processing), at completion
(status idle with the cursor past the end) every package is a member of
at least one outcome bucket; membership in exactly one does not hold in
general. -/
theorem c5_completion_coverage (pkgs : List String) (cfg : Config)
    (ops : List RunOp)
    (hops : ∀ op ∈ ops, msgFree op = true) (hemp : "" ∉ pkgs)
    (_hidle : (runTrace (startedState pkgs cfg) ops).status = Status.idle)
    (hdone : (runTrace (startedState pkgs cfg) ops).packages.length
        ≤ (runTrace (startedState pkgs cfg) ops).currentIndex)
    (p : String) (hp : p ∈ pkgs) :
    bucketed (runTrace (startedState pkgs cfg) ops) p := by
  have hstart : covered (startedState pkgs cfg) := by
    intro i hi hlen
    simp [startedState] at hi
  obtain ⟨hcov, hpk⟩ := covered_runTrace ops (startedState pkgs cfg) hops hemp hstart
  obtain ⟨i, hilen, hig⟩ := List.mem_iff_getElem.mp hp
  have hlen2 : i < (runTrace (startedState pkgs cfg) ops).packages.length := by
    rw [hpk]
    simpa [startedState] using hilen
  have hi2 : i < (runTrace (startedState pkgs cfg) ops).currentIndex :=
    lt_of_lt_of_le hlen2 hdone
  have hb := hcov i hi2 hlen2
  have hgd : (runTrace (startedState pkgs cfg) ops).packages.getD i "" = p := by
    rw [hpk]
    show pkgs.getD i "" = p
    rw [List.getD_eq_getElem pkgs "" hilen]
    exact hig
  rw [hgd] at hb
  exact hb

/-- C5 witness: the amended theorem applied to a one-package run finished
by the agent's not-found write. -/
theorem c5_witness :
    bucketed (runTrace (startedState ["a"] defaultConfig)
      [RunOp.pageNotFound]) "a" :=
  c5_completion_coverage ["a"] defaultConfig [RunOp.pageNotFound]
    (by decide) (by decide) (by decide) (by decide) "a" (by decide)

/-- C7: confirmed.  Every during-run operation on the shared record
(pause, resume, next, popup result handling, and the content-script
direct writes) leaves the cursor unchanged or increments it by one;
pause and resume leave the cursor and all three outcome buckets
untouched; and resume re-triggers navigation to the package at the
current cursor. -/
theorem c7_cursor_monotone (op : RunOp) (s : RunState)
    (h : s.currentIndex < s.packages.length) :
    ((applyOp op s).currentIndex = s.currentIndex
      ∨ (applyOp op s).currentIndex = s.currentIndex + 1)
    ∧ (handlePause s).currentIndex = s.currentIndex
    ∧ (handlePause s).completed = s.completed
    ∧ (handlePause s).failed = s.failed
    ∧ (handlePause s).skipped = s.skipped
    ∧ (handleResume s).1.currentIndex = s.currentIndex
    ∧ (handleResume s).1.completed = s.completed
    ∧ (handleResume s).1.failed = s.failed
    ∧ (handleResume s).1.skipped = s.skipped
    ∧ (handleResume s).2 = some (packageUrl (s.packages.getD s.currentIndex "")) := by
  have hmono : (applyOp op s).currentIndex = s.currentIndex
      ∨ (applyOp op s).currentIndex = s.currentIndex + 1 := by
    cases op with
    | pause => left; rfl
    | resume => left; exact (processCurrentPackage_fields _).2.1
    | next =>
        right
        simp only [applyOp, handleNext]
        split
        · simp
        · rw [(processCurrentPackage_fields _).2.1]
    | result m =>
        simp only [applyOp, handlePackageResult]
        split_ifs <;> simp
    | pageNotFound =>
        simp only [applyOp, agentNotFound, noReport]
        by_cases hg : s.status = Status.running ∧ s.currentIndex < s.packages.length
        · rw [if_pos hg]; right; simp [agentAdvance_idx]
        · rw [if_neg hg]; left; rfl
    | pageSuccess =>
        simp only [applyOp, agentSuccessOnLoad, noReport]
        by_cases hg : s.status = Status.running ∧ s.currentIndex < s.packages.length
        · rw [if_pos hg]; right; simp [agentAdvance_idx]
        · rw [if_neg hg]; left; rfl
    | pageAlreadyConfigured =>
        simp only [applyOp, agentAlreadyConfigured, noReport]
        by_cases hg : s.status = Status.running ∧ s.currentIndex < s.packages.length
        · rw [if_pos hg]; right; simp [agentAdvance_idx, apply_ite]
        · rw [if_neg hg]; left; rfl
    | pageDeleteNoButton =>
        simp only [applyOp, agentDeleteNoButton, noReport]
        by_cases hg : s.status = Status.running ∧ s.currentIndex < s.packages.length
        · rw [if_pos hg]; right; simp [agentAdvance_idx]
        · rw [if_neg hg]; left; rfl
    | observerSuccess pkg => left; rfl
  refine ⟨hmono, rfl, rfl, rfl, rfl,
    (processCurrentPackage_fields _).2.1,
    (processCurrentPackage_fields _).2.2.1,
    (processCurrentPackage_fields _).2.2.2.1,
    (processCurrentPackage_fields _).2.2.2.2, ?_⟩
  simp [handleResume, processCurrentPackage, Nat.not_le.mpr h]

/-- C7 witness: the theorem applied at a concrete two-package running
state and the next event. -/
theorem c7_witness :
    ((applyOp RunOp.next (startedState ["a", "b"] defaultConfig)).currentIndex
        = (startedState ["a", "b"] defaultConfig).currentIndex
      ∨ (applyOp RunOp.next (startedState ["a", "b"] defaultConfig)).currentIndex
        = (startedState ["a", "b"] defaultConfig).currentIndex + 1)
    ∧ (handleResume (startedState ["a", "b"] defaultConfig)).2
        = some (packageUrl "a") := by
  have hc := c7_cursor_monotone RunOp.next (startedState ["a", "b"] defaultConfig)
    (by decide)
  exact ⟨hc.1, hc.2.2.2.2.2.2.2.2.2⟩

theorem publishLoopGo_abort_spec (otps : Nat → String) (pub : String → Bool)
    (total : Nat) : ∀ (pkgs : List String) (i : Nat) (succ fail : List String)
    (k : Nat), k < pkgs.length → otps (i + k) = "" →
    (∀ j, j < k → otps (i + j) ≠ "") →
    (publishLoopGo otps pub total pkgs i succ fail).aborted = true
    ∧ invokedPkgs (publishLoopGo otps pub total pkgs i succ fail).effects
        = pkgs.take k
    ∧ (publishLoopGo otps pub total pkgs i succ fail).succeeded
        = succ ++ (pkgs.take k).filter pub
    ∧ (publishLoopGo otps pub total pkgs i succ fail).failed
        = fail ++ (pkgs.take k).filter (fun p => !(pub p))
    ∧ ShellEff.echoLine "Error: Could not get OTP from 1Password"
        ∈ (publishLoopGo otps pub total pkgs i succ fail).effects
    ∧ ShellEff.exitWith 1 ∈ (publishLoopGo otps pub total pkgs i succ fail).effects := by
  intro pkgs
  induction pkgs with
  | nil =>
      intro i succ fail k hk he hne
      simp at hk
  | cons pkg rest ih =>
      intro i succ fail k hk he hne
      cases k with
      | zero =>
          have he0 : otps i = "" := by simpa using he
          simp [publishLoopGo, he0, invokedPkgs, List.filterMap_append]
      | succ n =>
          have hne0 : otps i ≠ "" := by
            have := hne 0 (Nat.succ_pos n)
            simpa using this
          have ihr := ih (i + 1)
            (if pub pkg then succ ++ [pkg] else succ)
            (if pub pkg then fail else fail ++ [pkg]) n
            (by simpa using hk)
            (by rw [show i + 1 + n = i + (n + 1) from by omega]; exact he)
            (fun j hj => by
              rw [show i + 1 + j = i + (j + 1) from by omega]
              exact hne (j + 1) (by omega))
          simp only [publishLoopGo]
          rw [if_neg hne0]
          refine ⟨ihr.1, ?_, ?_, ?_, ?_, ?_⟩
          · have h2 := ihr.2.1
            simp only [invokedPkgs] at h2
            cases hp0 : pub pkg <;>
              rw [hp0] at h2 <;>
              simp only [if_true, if_false, Bool.false_eq_true] at h2 <;>
              by_cases hs : i + 1 < total <;>
              simp [hp0, hs, invokedPkgs, List.filterMap_append,
                List.take_succ_cons, h2]
          · have h3 := ihr.2.2.1
            cases hp0 : pub pkg <;>
              rw [hp0] at h3 <;>
              simp only [if_true, if_false, Bool.false_eq_true] at h3 <;>
              simp [hp0, h3, List.filter_cons, List.take_succ_cons]
          · have h4 := ihr.2.2.2.1
            cases hp0 : pub pkg <;>
              rw [hp0] at h4 <;>
              simp only [if_true, if_false, Bool.false_eq_true] at h4 <;>
              simp [hp0, h4, List.filter_cons, List.take_succ_cons]
          · exact List.mem_append_right _ ihr.2.2.2.2.1
          · exact List.mem_append_right _ ihr.2.2.2.2.2

/-- C9: confirmed.  If the secrets CLI returns an empty passcode at the
first such iteration k, the publisher aborts with exit 1 and the fatal
message; the publish command has been invoked exactly for the packages
before position k, and the succeeded and failed lists hold only outcomes
of those earlier packages, so no entry exists for the package at k. -/
theorem c9_empty_otp_aborts (otps : Nat → String) (pub : String → Bool)
    (pkgs : List String) (k : Nat) (hk : k < pkgs.length)
    (he : otps k = "") (hne : ∀ j, j < k → otps j ≠ "") :
    (publishScriptRun otps pub pkgs).aborted = true
    ∧ invokedPkgs (publishScriptRun otps pub pkgs).effects = pkgs.take k
    ∧ (publishScriptRun otps pub pkgs).succeeded = (pkgs.take k).filter pub
    ∧ (publishScriptRun otps pub pkgs).failed
        = (pkgs.take k).filter (fun p => !(pub p))
    ∧ ShellEff.echoLine "Error: Could not get OTP from 1Password"
        ∈ (publishScriptRun otps pub pkgs).effects
    ∧ ShellEff.exitWith 1 ∈ (publishScriptRun otps pub pkgs).effects := by
  have hl := publishLoopGo_abort_spec otps pub pkgs.length pkgs 0 [] [] k hk
    (by simpa using he) (fun j hj => by simpa using hne j hj)
  have hrun : publishScriptRun otps pub pkgs
      = { publishLoopGo otps pub pkgs.length pkgs 0 [] [] with
          effects := [ShellEff.echoLine
              ("Publishing " ++ toString pkgs.length ++ " packages..."),
              ShellEff.echoLine ""]
            ++ (publishLoopGo otps pub pkgs.length pkgs 0 [] []).effects } := by
    simp [publishScriptRun, hl.1]
  rw [hrun]
  refine ⟨hl.1, ?_, by simpa using hl.2.2.1, by simpa using hl.2.2.2.1, ?_, ?_⟩
  · have h2 := hl.2.1
    simp only [invokedPkgs, List.filterMap_append] at h2 ⊢
    simp [h2]
  · exact List.mem_append_right _ hl.2.2.2.2.1
  · exact List.mem_append_right _ hl.2.2.2.2.2

/-- C9 witness: the theorem applied to a one-package run whose very first
passcode retrieval comes back empty. -/
theorem c9_witness :
    (publishScriptRun (fun _ => "") (fun _ => true) ["@dxos/a"]).aborted = true
    ∧ invokedPkgs (publishScriptRun (fun _ => "") (fun _ => true)
        ["@dxos/a"]).effects = []
    ∧ (publishScriptRun (fun _ => "") (fun _ => true) ["@dxos/a"]).succeeded = []
    ∧ (publishScriptRun (fun _ => "") (fun _ => true) ["@dxos/a"]).failed = [] := by
  have h := c9_empty_otp_aborts (fun _ => "") (fun _ => true) ["@dxos/a"] 0
    (by decide) rfl (fun j hj => absurd hj (by omega))
  exact ⟨h.1, h.2.1, h.2.2.1, h.2.2.2.1⟩

theorem mainCheckLoop_eq (resp : String → FetchResult) :
    ∀ (n : Nat) (pkgs : List String), pkgs.length ≤ n →
    mainCheckLoop resp pkgs
      = (pkgs.filter (fun p => checkPackageExists (resp p)),
         pkgs.filter (fun p => !(checkPackageExists (resp p)))) := by
  intro n
  induction n with
  | zero =>
      intro pkgs h
      have hnil : pkgs = [] := List.eq_nil_of_length_eq_zero (Nat.le_zero.mp h)
      subst hnil
      rw [mainCheckLoop]
      simp
  | succ n ih =>
      intro pkgs h
      by_cases hemp : pkgs.isEmpty
      · rw [mainCheckLoop]
        simp [hemp, List.isEmpty_iff.mp hemp]
      · rw [mainCheckLoop]
        simp only [hemp, Bool.false_eq_true, if_false]
        rw [ih (pkgs.drop CONCURRENCY) (by
          have hpos : 0 < pkgs.length := by
            cases pkgs with
            | nil => simp at hemp
            | cons a t => simp
          simp only [List.length_drop, CONCURRENCY]
          omega)]
        simp only [List.partition_eq_filter_filter, Prod.mk.injEq]
        constructor
        · rw [← List.filter_append, List.take_append_drop]
        · rw [show (not ∘ fun p => checkPackageExists (resp p))
              = (fun p => !(checkPackageExists (resp p))) from by
            funext q
            simp [Function.comp]]
          rw [← List.filter_append, List.take_append_drop]

theorem checkPackageExists_iff (r : FetchResult) :
    checkPackageExists r = true ↔ r = FetchResult.ok 200 := by
  cases r with
  | ok st => simp [checkPackageExists]
  | fetchFailed => simp [checkPackageExists]

/-- C10: confirmed.  A probed package is classified as published iff the
registry fetch returned HTTP status exactly 200; any other status and any
fetch error put it in the unpublished list, and every probed package
lands in exactly one of the two lists. -/
theorem c10_registry_partition (resp : String → FetchResult)
    (pkgs : List String) (p : String) (hp : p ∈ pkgs) :
    ((p ∈ (mainCheckLoop resp pkgs).1) ↔ resp p = FetchResult.ok 200)
    ∧ ((p ∈ (mainCheckLoop resp pkgs).2) ↔ resp p ≠ FetchResult.ok 200)
    ∧ (p ∈ (mainCheckLoop resp pkgs).1 ∨ p ∈ (mainCheckLoop resp pkgs).2)
    ∧ ¬ (p ∈ (mainCheckLoop resp pkgs).1 ∧ p ∈ (mainCheckLoop resp pkgs).2) := by
  rw [mainCheckLoop_eq resp pkgs.length pkgs (Nat.le_refl _)]
  have h1 : (p ∈ pkgs.filter (fun q => checkPackageExists (resp q)))
      ↔ resp p = FetchResult.ok 200 := by
    rw [List.mem_filter]
    rw [checkPackageExists_iff]
    simp [hp]
  have h2 : (p ∈ pkgs.filter (fun q => !(checkPackageExists (resp q))))
      ↔ resp p ≠ FetchResult.ok 200 := by
    rw [List.mem_filter]
    simp only [hp, true_and, Bool.not_eq_true']
    rw [Bool.eq_false_iff]
    exact not_congr (checkPackageExists_iff _)
  refine ⟨h1, h2, ?_, ?_⟩
  · by_cases hr : resp p = FetchResult.ok 200
    · exact Or.inl (h1.mpr hr)
    · exact Or.inr (h2.mpr hr)
  · rintro ⟨ha, hb⟩
    exact (h2.mp hb) (h1.mp ha)

/-- C10 witness: the theorem applied to a concrete two-package probe in
which one fetch returns 200 and the other throws. -/
theorem c10_witness :
    (("@dxos/a" ∈ (mainCheckLoop
        (fun q => if q = "@dxos/a" then FetchResult.ok 200 else FetchResult.fetchFailed)
        ["@dxos/a", "@dxos/b"]).1)
      ↔ (fun q => if q = "@dxos/a" then FetchResult.ok 200 else FetchResult.fetchFailed)
          "@dxos/a" = FetchResult.ok 200)
    ∧ (("@dxos/a" ∈ (mainCheckLoop
        (fun q => if q = "@dxos/a" then FetchResult.ok 200 else FetchResult.fetchFailed)
        ["@dxos/a", "@dxos/b"]).2)
      ↔ (fun q => if q = "@dxos/a" then FetchResult.ok 200 else FetchResult.fetchFailed)
          "@dxos/a" ≠ FetchResult.ok 200) := by
  have h := c10_registry_partition
    (fun q => if q = "@dxos/a" then FetchResult.ok 200 else FetchResult.fetchFailed)
    ["@dxos/a", "@dxos/b"] "@dxos/a" (by decide)
  exact ⟨h.1, h.2.1⟩

/-- C3 witness: the amended theorem applied at the concrete rejected
start of the counterexample scenario. -/
theorem c3_witness :
    (handleStart storedAState emptyListForm).accepted = false
    ∧ (handleStart storedAState emptyListForm).state.status
        = storedAState.status := by
  have h := c3_start_rejection storedAState emptyListForm (by decide)
  exact ⟨h.1, h.2.1⟩

end NTP
